import Mathlib

/-!
Verification development for the Mystery Order email automation scripts.

The tracking sheet is modelled as a list of data rows (the header row is
implicit: JavaScript loops that start at index 1 correspond here to plain
recursion over the data rows).  Cell values are modelled by their JS types:
the Opened column ("Yes"/"No") as a Bool, the Views column as a Nat, dates
as Int timestamps, and an empty Open Date cell as none.  A missing tracking
sheet is modelled as the none case of an Option.
-/

/-- One data row of the "Mystery Email Tracking" sheet, in column order:
Tracking ID, Email, Seller ID, Send Date, Open Date, Opened, Views. -/
structure TrackingRecord where
  token : String
  email : String
  sellerId : String
  sendDate : Int
  openDate : Option Int
  opened : Bool
  views : Nat
deriving DecidableEq, Repr

/-- Default record used with List.getD when indexing rows. -/
def emptyRec : TrackingRecord := ⟨"", "", "", 0, none, false, 0⟩

/-- MIME types used by the doGet handler (ContentService.MimeType). -/
inductive MimeKind where
  | image
  | text
deriving DecidableEq, Repr

/-- A ContentService text output: body string plus MIME type. -/
structure TextOutput where
  content : String
  mime : MimeKind
deriving DecidableEq, Repr

/-- The literal 1x1 transparent GIF byte string returned by doGet. -/
def pixelGif : String :=
  "GIF89a\x01\x00\x01\x00\x80\x00\x00\x00\x00\x00\x00\x00\x00!\xf9\x04\x01\x00\x00\x00\x00,\x00\x00\x00\x00\x01\x00\x01\x00\x00\x02\x02D\x01\x00;"

/-- The fixed placeholder response doGet returns on every request. -/
def gifOutput : TextOutput := ⟨pixelGif, MimeKind.image⟩

/-- The inbound callback request: query parameters id and action, each
possibly absent (JS undefined is modelled as none). -/
structure Request where
  id : Option String
  action : Option String
deriving DecidableEq, Repr

/-- JS truthiness of the id parameter: absent (undefined) and the empty
string are falsy, any other string is truthy. -/
def idTruthy : Option String → Bool
  | none => false
  | some s => decide (s ≠ "")

/-- The per-row update of recordEmailOpen once the matching row is found:
if Opened is "No", set Open Date to now and Opened to "Yes"; otherwise set
Views to the read value plus one. -/
def hitStep (now : Int) (r : TrackingRecord) : TrackingRecord :=
  if r.opened = false then
    { r with openDate := some now, opened := true }
  else
    { r with views := r.views + 1 }

/-- The lookup loop of recordEmailOpen: scan rows in order, update the
first row whose Tracking ID matches, then stop (the source breaks out of
the loop after the first match). -/
def recordHit (now : Int) (trackingId : String) : List TrackingRecord → List TrackingRecord
  | [] => []
  | r :: rs =>
    if r.token = trackingId then hitStep now r :: rs
    else r :: recordHit now trackingId rs

/-- recordEmailOpen: if the tracking sheet is missing, return without any
change; otherwise run the lookup loop over its data rows. -/
def recordEmailOpen (now : Int) (trackingId : String) :
    Option (List TrackingRecord) → Option (List TrackingRecord)
  | none => none
  | some rows => some (recordHit now trackingId rows)

/-- doGet: when action is exactly "open" and id is truthy, record the open;
in every case return the fixed 1x1 transparent GIF output. -/
def doGet (now : Int) (req : Request) (store : Option (List TrackingRecord)) :
    Option (List TrackingRecord) × TextOutput :=
  let store2 :=
    if req.action = some "open" ∧ idTruthy req.id = true then
      recordEmailOpen now (req.id.getD "") store
    else store
  (store2, gifOutput)

/-- The store component of the doGet result. -/
def doGetStore (now : Int) (req : Request) (store : Option (List TrackingRecord)) :
    Option (List TrackingRecord) :=
  (doGet now req store).1

/-- The request issued when the tracking pixel for a token loads. -/
def openReq (tid : String) : Request := ⟨some tid, some "open"⟩

/-- Sequential pixel hits for one token via doGet, one per listed time. -/
def runGets (times : List Int) (tid : String) (store : Option (List TrackingRecord)) :
    Option (List TrackingRecord) :=
  times.foldl (fun s t => (doGet t (openReq tid) s).1) store

/-- Sequential recordEmailOpen calls at the row level, each hit being a
time together with the token it targets. -/
def runHits (hits : List (Int × String)) (rows : List TrackingRecord) : List TrackingRecord :=
  hits.foldl (fun rs h => recordHit h.1 h.2 rs) rows

/-- Index of the first row whose Tracking ID matches, if any. -/
def findTokenIdx (trackingId : String) : List TrackingRecord → Option Nat
  | [] => none
  | r :: rs =>
    if r.token = trackingId then some 0
    else (findTokenIdx trackingId rs).map (fun i => i + 1)

/-- Replace the row at an index by a function of itself; out-of-range
indices leave the list unchanged. -/
def modifyAt (f : TrackingRecord → TrackingRecord) : Nat → List TrackingRecord → List TrackingRecord
  | _, [] => []
  | 0, r :: rs => f r :: rs
  | n + 1, r :: rs => r :: modifyAt f n rs

/-- The write phase of one recordEmailOpen call under concurrent
interleaving: the branch taken and the Views value written are computed
from the snapshot the call read, but the cell writes land on the current
sheet contents.  With snapshot = current this is exactly recordHit. -/
def hitWrite (now : Int) (trackingId : String)
    (snapshot current : List TrackingRecord) : List TrackingRecord :=
  match findTokenIdx trackingId snapshot with
  | none => current
  | some i =>
    let snapRec := snapshot.getD i emptyRec
    if snapRec.opened = false then
      modifyAt (fun r => { r with openDate := some now, opened := true }) i current
    else
      modifyAt (fun r => { r with views := snapRec.views + 1 }) i current

/-- CONFIG.WEB_APP_URL from the source configuration. -/
def WEB_APP_URL : String :=
  "https://script.google.com/macros/s/AKfycbyZTRbYV2UJz0MtQWIOS4uilC87fUWuOUoNM5Lj7QOiR3dP5cUqviREKN9FbH6xeBg-PQ/exec"

/-- The tracking URL built by generateTrackingPixel. -/
def trackingUrl (trackingId : String) : String :=
  WEB_APP_URL ++ "?id=" ++ trackingId ++ "&action=open"

/-- The invisible 1x1 image markup wrapping a URL. -/
def pixelMarkup (url : String) : String :=
  "<img src=\"" ++ url ++ "\" width=\"1\" height=\"1\" alt=\"\" style=\"display:none\">"

/-- recordTrackingId: create the tracking sheet when missing (header row
implicit here), then append one fresh row with empty Open Date, Opened
"No" and Views 0. -/
def recordTrackingId (trackingId email sellerId : String) (now : Int)
    (store : Option (List TrackingRecord)) : List TrackingRecord :=
  (store.getD []) ++ [⟨trackingId, email, sellerId, now, none, false, 0⟩]

/-- generateTrackingPixel: mint a token (here passed in, standing for the
fresh UUID), record it, and return the pixel markup for its tracking URL.
Result: the markup together with the updated store rows. -/
def generateTrackingPixel (trackingId email sellerId : String) (now : Int)
    (store : Option (List TrackingRecord)) : String × List TrackingRecord :=
  (pixelMarkup (trackingUrl trackingId), recordTrackingId trackingId email sellerId now store)

/-- JS String.split with a one-character separator: split at every
occurrence; an empty input yields one empty field. -/
def splitOnChar (sep : Char) : List Char → List (List Char)
  | [] => [[]]
  | c :: rest =>
    match splitOnChar sep rest with
    | [] => if c = sep then [[], []] else [[c]]
    | g :: gs => if c = sep then [] :: g :: gs else (c :: g) :: gs

/-- JS String.trim: drop whitespace from both ends. -/
def trimChars (cs : List Char) : List Char :=
  ((cs.dropWhile Char.isWhitespace).reverse.dropWhile Char.isWhitespace).reverse

/-- True when no character of the list is whitespace. -/
def noWsChars (cs : List Char) : Bool :=
  cs.all (fun c => !c.isWhitespace)

/-- True when some dot occurs at an interior position of the list: neither
first nor last. -/
def hasInteriorDot (cs : List Char) : Bool :=
  (List.range cs.length).any (fun i =>
    decide (0 < i) && decide (i + 1 < cs.length) && cs.getD i ' ' == '.')

/-- isValidEmail: the JS test of the regular expression matching one or
more non-space non-at characters, an at sign, one or more such characters,
a dot, and one or more such characters.  Equivalently: exactly one at
sign, no whitespace, and a dot strictly inside the domain part. -/
def isValidEmail (email : String) : Bool :=
  match splitOnChar '@' email.toList with
  | [localPart, domain] =>
    !localPart.isEmpty && noWsChars localPart && noWsChars domain && hasInteriorDot domain
  | _ => false

/-- The fields of a processed seller row that sendNotificationEmail uses. -/
structure RowData where
  sellerId : String
  sellerName : String
  sellerEmail : String
  result : String
  reportLink : String
deriving DecidableEq, Repr

/-- Result of sendNotificationEmail: the returned Bool, the list of
addresses a mail send was attempted for, and the tracking rows after. -/
structure SendOutcome where
  success : Bool
  sentTo : List String
  rows : List TrackingRecord
deriving DecidableEq, Repr

/-- sendNotificationEmail: one generateTrackingPixel call for the whole
row (before the recipient loop), then one send per address of the
comma-split, trimmed email field that passes isValidEmail; returns true
when at least one send happened. -/
def sendNotificationEmail (data : RowData) (trackingId : String) (now : Int)
    (store : Option (List TrackingRecord)) : SendOutcome :=
  let rows := (generateTrackingPixel trackingId data.sellerEmail data.sellerId now store).2
  let emailAddresses :=
    (splitOnChar ',' data.sellerEmail.toList).map (fun e => (trimChars e).asString)
  let sentTo := emailAddresses.filter isValidEmail
  ⟨sentTo.length != 0, sentTo, rows⟩

/-- Models Number.prototype.toFixed(2) on the exact rational n / d with
d > 0: two decimal digits, rounding to nearest.  The source computes in
binary floating point; on the decimally exact values arising in this
development the two agree. -/
def toFixed2 (n d : Nat) : String :=
  let scaled := (n * 200 + d) / (2 * d)
  let ip := scaled / 100
  let fp := scaled % 100
  toString ip ++ "." ++ (if fp < 10 then "0" ++ toString fp else toString fp)

/-- Accumulator of the statistics loop of getEmailStats. -/
structure StatsAcc where
  openedEmails : Nat
  totalViews : Nat
  lastWeekEmails : Nat
  lastWeekOpened : Nat
deriving DecidableEq, Repr

/-- One iteration of the getEmailStats loop: opened rows bump the opened
count and add their Views (a zero Views cell, being falsy, counts as 1);
rows sent after the one-week-ago cutoff bump the last-week counters. -/
def statsLoopStep (oneWeekAgo : Int) (acc : StatsAcc) (r : TrackingRecord) : StatsAcc :=
  let acc1 :=
    if r.opened then
      { acc with
        openedEmails := acc.openedEmails + 1,
        totalViews := acc.totalViews + (if r.views = 0 then 1 else r.views) }
    else acc
  if oneWeekAgo < r.sendDate then
    { acc1 with
      lastWeekEmails := acc1.lastWeekEmails + 1,
      lastWeekOpened := acc1.lastWeekOpened + (if r.opened then 1 else 0) }
  else acc1

/-- The statistics object getEmailStats returns on success.  String fields
hold what the source renders into them: the rate ternaries produce either
a two-decimal string or the number 0, interpolated into a percent string;
averageViews holds the two-decimal string, or "0" for the number 0. -/
structure Stats where
  totalEmails : Nat
  openedEmails : Nat
  openRate : String
  totalViews : Nat
  averageViews : String
  lastWeekEmails : Nat
  lastWeekOpened : Nat
  lastWeekOpenRate : String
deriving DecidableEq, Repr

/-- getEmailStats either returns an error-message object or statistics. -/
inductive StatsResult where
  | err (msg : String)
  | ok (stats : Stats)
deriving DecidableEq, Repr

/-- The totalViews field of a successful statistics result. -/
def statsTotalViews : StatsResult → Option Nat
  | StatsResult.ok s => some s.totalViews
  | StatsResult.err _ => none

/-- The averageViews field of a successful statistics result. -/
def statsAverageViews : StatsResult → Option String
  | StatsResult.ok s => some s.averageViews
  | StatsResult.err _ => none

/-- getEmailStats: error objects for a missing sheet or a header-only
sheet, otherwise one pass over the rows followed by the guarded rate and
average computations.  The one-week-ago cutoff (today minus seven days in
the source) is passed in as a timestamp. -/
def getEmailStats (oneWeekAgo : Int) (store : Option (List TrackingRecord)) : StatsResult :=
  match store with
  | none =>
    StatsResult.err "Tracking sheet not found. It will be created automatically after emails are sent."
  | some rows =>
    if rows.isEmpty then
      StatsResult.err "No tracking data available. Statistics will appear after emails are sent."
    else
      let totalEmails := rows.length
      let acc := rows.foldl (statsLoopStep oneWeekAgo) ⟨0, 0, 0, 0⟩
      StatsResult.ok
        { totalEmails := totalEmails
          openedEmails := acc.openedEmails
          openRate :=
            (if 0 < totalEmails then toFixed2 (acc.openedEmails * 100) totalEmails else "0") ++ "%"
          totalViews := acc.totalViews
          averageViews :=
            if 0 < acc.openedEmails then toFixed2 acc.totalViews acc.openedEmails else "0"
          lastWeekEmails := acc.lastWeekEmails
          lastWeekOpened := acc.lastWeekOpened
          lastWeekOpenRate :=
            (if 0 < acc.lastWeekEmails then toFixed2 (acc.lastWeekOpened * 100) acc.lastWeekEmails
             else "0") ++ "%" }

/-- Builder for concrete test rows: opened rows carry an Open Date. -/
def mkRec (tok : String) (opened : Bool) (views : Nat) : TrackingRecord :=
  ⟨tok, "e@x.com", "s", 0, if opened then some 0 else none, opened, views⟩

/-- The ten-record scenario store of claim C2: four opened rows, one of
them with Views 3 and three with Views 0, plus six unopened rows. -/
def c2store : List TrackingRecord :=
  [mkRec "t1" true 3, mkRec "t2" true 0, mkRec "t3" true 0, mkRec "t4" true 0,
   mkRec "t5" false 0, mkRec "t6" false 0, mkRec "t7" false 0,
   mkRec "t8" false 0, mkRec "t9" false 0, mkRec "t10" false 0]

/-- A lookup that matches no row leaves the rows unchanged. -/
theorem recordHit_nomatch (now : Int) (tid : String) :
    ∀ rows : List TrackingRecord, (∀ r ∈ rows, r.token ≠ tid) →
      recordHit now tid rows = rows := by
  intro rows h
  induction rows with
  | nil => rfl
  | cons r rs ih =>
    have hr : r.token ≠ tid := h r (List.mem_cons_self r rs)
    simp only [recordHit, if_neg hr]
    exact congrArg (fun l => r :: l) (ih (fun x hx => h x (List.mem_cons_of_mem r hx)))

/-- A lookup whose token first matches at the given row updates exactly
that row with hitStep. -/
theorem recordHit_first (now : Int) (tid : String) (post : List TrackingRecord)
    (r : TrackingRecord) (hr : r.token = tid) :
    ∀ pre : List TrackingRecord, (∀ p ∈ pre, p.token ≠ tid) →
      recordHit now tid (pre ++ r :: post) = pre ++ hitStep now r :: post := by
  intro pre hpre
  induction pre with
  | nil => simp [recordHit, hr]
  | cons p ps ih =>
    have hp : p.token ≠ tid := hpre p (List.mem_cons_self p ps)
    simp only [List.cons_append, recordHit, if_neg hp]
    exact congrArg (fun l => p :: l)
      (ih (fun x hx => hpre x (List.mem_cons_of_mem p hx)))

/-- A doGet carrying action open and a nonempty token id reduces to
recordEmailOpen for that token. -/
theorem doGet_open (t : Int) (tid : String) (htid : tid ≠ "")
    (store : Option (List TrackingRecord)) :
    (doGet t (openReq tid) store).1 = recordEmailOpen t tid store := by
  simp [doGet, openReq, idTruthy, htid]

/-- Hits on an already-opened record only ever add one view each: a run of
hits leaves the record opened, with its view count grown by the number of
hits. -/
theorem runGets_opened (tid : String) (htid : tid ≠ "") :
    ∀ (times : List Int) (pre post : List TrackingRecord) (r : TrackingRecord),
      (∀ p ∈ pre, p.token ≠ tid) → r.token = tid → r.opened = true →
      runGets times tid (some (pre ++ r :: post))
        = some (pre ++ { r with views := r.views + times.length } :: post) := by
  intro times
  induction times with
  | nil => intro pre post r hpre hr hop; simp [runGets]
  | cons t ts ih =>
    intro pre post r hpre hr hop
    have hstep : runGets (t :: ts) tid (some (pre ++ r :: post))
        = runGets ts tid ((doGet t (openReq tid) (some (pre ++ r :: post))).1) := rfl
    rw [hstep, doGet_open t tid htid]
    simp only [recordEmailOpen, recordHit_first t tid post r hr pre hpre]
    have hview : hitStep t r = { r with views := r.views + 1 } := by
      simp [hitStep, hop]
    rw [hview]
    rw [ih pre post { r with views := r.views + 1 } hpre hr hop]
    simp only [List.length_cons]
    have harith : r.views + 1 + ts.length = r.views + (ts.length + 1) := by omega
    simp [harith]

/-- Claim C1: for a stored record with Opened "No" and Views 0, a sequence
of one or more open-recorder hits carrying action open and the record's
token leaves the record opened with Views still 0 after the first hit, and
with Views N - 1 after the Nth hit. -/
theorem c1_sequential_hits (pre post : List TrackingRecord) (r : TrackingRecord)
    (t0 : Int) (ts : List Int)
    (hop : r.opened = false) (hv : r.views = 0) (htok : r.token ≠ "")
    (hpre : ∀ p ∈ pre, p.token ≠ r.token) :
    (∃ r1, (doGet t0 (openReq r.token) (some (pre ++ r :: post))).1
            = some (pre ++ r1 :: post) ∧ r1.opened = true ∧ r1.views = 0)
  ∧ (∃ rN, runGets (t0 :: ts) r.token (some (pre ++ r :: post))
            = some (pre ++ rN :: post) ∧ rN.opened = true
          ∧ rN.views = (t0 :: ts).length - 1) := by
  have hfirst : (doGet t0 (openReq r.token) (some (pre ++ r :: post))).1
      = some (pre ++ { r with openDate := some t0, opened := true } :: post) := by
    rw [doGet_open t0 r.token htok]
    simp only [recordEmailOpen, recordHit_first t0 r.token post r rfl pre hpre]
    simp [hitStep, hop]
  constructor
  · exact ⟨{ r with openDate := some t0, opened := true }, hfirst, rfl, hv⟩
  · have hrun : runGets (t0 :: ts) r.token (some (pre ++ r :: post))
        = runGets ts r.token ((doGet t0 (openReq r.token) (some (pre ++ r :: post))).1) := rfl
    rw [hrun, hfirst,
      runGets_opened r.token htok ts pre post { r with openDate := some t0, opened := true }
        hpre rfl rfl]
    refine ⟨_, rfl, rfl, ?_⟩
    simp [hv]

/-- Witness for C1: one fresh record, three hits at times 1, 2, 3. -/
theorem c1_sequential_hits_witness :
    (∃ r1, (doGet 1 (openReq "tok-1")
              (some ([] ++ (⟨"tok-1", "a@x.com", "s1", 0, none, false, 0⟩ : TrackingRecord) :: []))).1
            = some ([] ++ r1 :: []) ∧ r1.opened = true ∧ r1.views = 0)
  ∧ (∃ rN, runGets (1 :: [2, 3]) "tok-1"
              (some ([] ++ (⟨"tok-1", "a@x.com", "s1", 0, none, false, 0⟩ : TrackingRecord) :: []))
            = some ([] ++ rN :: []) ∧ rN.opened = true
          ∧ rN.views = (1 :: [2, 3] : List Int).length - 1) :=
  c1_sequential_hits [] [] ⟨"tok-1", "a@x.com", "s1", 0, none, false, 0⟩ 1 [2, 3]
    rfl rfl (by decide) (by simp)

/-- Claim C2 counterexample: on the ten-record scenario store the source
returns totalViews 6 (the opened row with Views 3 contributes 3, each
opened row with Views 0 contributes 1) and averageViews "1.50", not the
claimed 7 and "1.75". -/
theorem c2_counterexample :
    statsTotalViews (getEmailStats 1 (some c2store)) = some 6
  ∧ statsTotalViews (getEmailStats 1 (some c2store)) ≠ some 7
  ∧ statsAverageViews (getEmailStats 1 (some c2store)) = some "1.50"
  ∧ statsAverageViews (getEmailStats 1 (some c2store)) ≠ some "1.75" := by
  decide

/-- Claim C2 as amended: the ten-record scenario yields openedEmails 4,
totalViews 6, averageViews "1.50" and openRate "40.00%". -/
theorem c2_scenario :
    getEmailStats 1 (some c2store)
      = StatsResult.ok ⟨10, 4, "40.00%", 6, "1.50", 0, 0, "0%"⟩ := by
  decide

/-- Claim C3 counterexample: a seller row whose email field lists two
valid addresses yields two send attempts but only one appended tracking
row, not two. -/
theorem c3_counterexample :
    (sendNotificationEmail ⟨"s1", "Seller", "a@x.com, b@x.com", "passed", ""⟩
        "tok-1" 0 (some [])).sentTo = ["a@x.com", "b@x.com"]
  ∧ (sendNotificationEmail ⟨"s1", "Seller", "a@x.com, b@x.com", "passed", ""⟩
        "tok-1" 0 (some [])).rows.length = 1
  ∧ (sendNotificationEmail ⟨"s1", "Seller", "a@x.com, b@x.com", "passed", ""⟩
        "tok-1" 0 (some [])).rows.length ≠ 2 := by
  decide

/-- Claim C3 as amended: sendNotificationEmail attempts one send per
trimmed valid address of the comma-split email field, but appends exactly
one tracking row per processed seller row, carrying the whole email field;
the store grows by exactly one row regardless of the number of
recipients. -/
theorem c3_one_row_per_send (data : RowData) (trackingId : String) (now : Int)
    (store : Option (List TrackingRecord)) :
    (sendNotificationEmail data trackingId now store).rows
        = (store.getD []) ++ [⟨trackingId, data.sellerEmail, data.sellerId, now, none, false, 0⟩]
  ∧ (sendNotificationEmail data trackingId now store).rows.length = (store.getD []).length + 1
  ∧ (sendNotificationEmail data trackingId now store).sentTo
        = ((splitOnChar ',' data.sellerEmail.toList).map
            (fun e => (trimChars e).asString)).filter isValidEmail := by
  refine ⟨rfl, ?_, rfl⟩
  simp [sendNotificationEmail, generateTrackingPixel, recordTrackingId]

/-- Claim C7: with the tracking sheet absent or holding no data rows,
getEmailStats returns the descriptive no-data error objects; the rate and
average divisions live only in the unreached success branch, so no
division happens. -/
theorem c7_empty_store (oneWeekAgo : Int) :
    getEmailStats oneWeekAgo none
      = StatsResult.err
          "Tracking sheet not found. It will be created automatically after emails are sent."
  ∧ getEmailStats oneWeekAgo (some [])
      = StatsResult.err
          "No tracking data available. Statistics will appear after emails are sent." :=
  ⟨rfl, rfl⟩

/-- Claim C9: generateTrackingPixel appends exactly one fresh row (token,
recipient, seller id, send time now, empty Open Date, Opened "No",
Views 0) and returns invisible image markup whose URL is exactly the
configured endpoint followed by the id and action query string. -/
theorem c9_generateTrackingPixel (trackingId email sellerId : String) (now : Int)
    (store : Option (List TrackingRecord)) :
    (generateTrackingPixel trackingId email sellerId now store).2
        = (store.getD []) ++ [⟨trackingId, email, sellerId, now, none, false, 0⟩]
  ∧ (generateTrackingPixel trackingId email sellerId now store).1
        = "<img src=\"" ++ (WEB_APP_URL ++ "?id=" ++ trackingId ++ "&action=open")
            ++ "\" width=\"1\" height=\"1\" alt=\"\" style=\"display:none\">" :=
  ⟨rfl, rfl⟩

/-- With snapshot equal to the current contents (no interleaved writer),
the two-phase read-then-write model agrees with the sequential lookup
loop: the concurrency model refines the sequential one. -/
theorem hitWrite_cons_nomatch (now : Int) (tid : String) (r : TrackingRecord)
    (rs cur : List TrackingRecord) (hr : r.token ≠ tid) :
    hitWrite now tid (r :: rs) (r :: cur) = r :: hitWrite now tid rs cur := by
  unfold hitWrite
  cases h : findTokenIdx tid rs with
  | none => simp [findTokenIdx, hr, h]
  | some i =>
    simp [findTokenIdx, hr, h, modifyAt]
    split <;> rfl

/-- Snapshot-consistent two-phase writes compute recordHit. -/
theorem hitWrite_seq (now : Int) (tid : String) :
    ∀ rows : List TrackingRecord, hitWrite now tid rows rows = recordHit now tid rows := by
  intro rows
  induction rows with
  | nil => rfl
  | cons r rs ih =>
    by_cases hr : r.token = tid
    · simp [hitWrite, findTokenIdx, hr, recordHit, hitStep, modifyAt]
      split <;> rfl
    · rw [hitWrite_cons_nomatch now tid r rs rs hr, ih]
      simp [recordHit, hr]

/-- Claim C8 concerns the spec's concurrency requirement; the source has
no per-token mutual exclusion, so two simultaneous first hits on a fresh
token, both reading before either writes, each observe Opened "No" and
both run the first-open branch: the final record keeps Views 0 where the
claim requires K - 1 = 1, and its Open Date is overwritten by the second
hit, while the same two hits run sequentially leave Views 1. -/
theorem c8_concurrent_lost_update :
    (hitWrite 2 "tok-1" [⟨"tok-1", "a@x.com", "s1", 0, none, false, 0⟩]
        (hitWrite 1 "tok-1" [⟨"tok-1", "a@x.com", "s1", 0, none, false, 0⟩]
          [⟨"tok-1", "a@x.com", "s1", 0, none, false, 0⟩]))
      = [⟨"tok-1", "a@x.com", "s1", 0, some 2, true, 0⟩]
  ∧ ((hitWrite 2 "tok-1" [⟨"tok-1", "a@x.com", "s1", 0, none, false, 0⟩]
        (hitWrite 1 "tok-1" [⟨"tok-1", "a@x.com", "s1", 0, none, false, 0⟩]
          [⟨"tok-1", "a@x.com", "s1", 0, none, false, 0⟩])).getD 0 emptyRec).views ≠ 2 - 1
  ∧ runHits [(1, "tok-1"), (2, "tok-1")] [⟨"tok-1", "a@x.com", "s1", 0, none, false, 0⟩]
      = [⟨"tok-1", "a@x.com", "s1", 0, some 1, true, 1⟩] := by
  decide

/-- Claim C4: a callback whose action is absent or differs from the exact
literal "open", whose id is absent, or whose id matches no stored token,
leaves the tracking store completely unchanged and returns the fixed
placeholder GIF output. -/
theorem c4_invalid_request_noop (now : Int) (req : Request)
    (store : Option (List TrackingRecord))
    (h : req.action ≠ some "open" ∨ req.id = none
       ∨ ∀ s, req.id = some s → ∀ r ∈ store.getD [], r.token ≠ s) :
    doGet now req store = (store, gifOutput) := by
  by_cases hc : req.action = some "open" ∧ idTruthy req.id = true
  · obtain ⟨hact, hid⟩ := hc
    cases hreqid : req.id with
    | none => rw [hreqid] at hid; simp [idTruthy] at hid
    | some s =>
      have hs : ∀ r ∈ store.getD [], r.token ≠ s := by
        rcases h with h1 | h2 | h3
        · exact absurd hact h1
        · rw [hreqid] at h2; exact absurd h2 (by simp)
        · exact h3 s hreqid
      cases store with
      | none => simp [doGet, recordEmailOpen, hact, hreqid, hid]
      | some rows =>
        have hrh : recordHit now s rows = rows :=
          recordHit_nomatch now s rows (by simpa using hs)
        simp [doGet, hact, hreqid, hid, recordEmailOpen, hrh]
  · simp [doGet, hc]

/-- Witness for C4: a request carrying a stored token but no action
parameter is a no-op. -/
theorem c4_invalid_request_noop_witness :
    doGet 0 ⟨some "tok-1", none⟩ (some [⟨"tok-1", "a@x.com", "s1", 0, none, false, 0⟩])
      = (some [⟨"tok-1", "a@x.com", "s1", 0, none, false, 0⟩], gifOutput) :=
  c4_invalid_request_noop 0 ⟨some "tok-1", none⟩
    (some [⟨"tok-1", "a@x.com", "s1", 0, none, false, 0⟩]) (Or.inl (by simp))

/-- One recordEmailOpen hit preserves the row count; per row, the opened
flag never reverts, the view count never decreases, and a changed view
count means the row was already opened and gained exactly one view. -/
theorem recordHit_step_props (d : TrackingRecord) (t : Int) (tid : String) :
    ∀ (rows : List TrackingRecord) (i : Nat),
      (recordHit t tid rows).length = rows.length
    ∧ ((rows.getD i d).opened = true → ((recordHit t tid rows).getD i d).opened = true)
    ∧ (rows.getD i d).views ≤ ((recordHit t tid rows).getD i d).views
    ∧ (((recordHit t tid rows).getD i d).views ≠ (rows.getD i d).views →
         (rows.getD i d).opened = true
       ∧ ((recordHit t tid rows).getD i d).views = (rows.getD i d).views + 1) := by
  intro rows
  induction rows with
  | nil => intro i; simp [recordHit]
  | cons r rs ih =>
    intro i
    by_cases hr : r.token = tid
    · simp only [recordHit, if_pos hr]
      cases i with
      | zero =>
        simp only [List.getD_cons_zero, List.length_cons]
        cases hop : r.opened <;> simp [hitStep, hop]
      | succ n => simp [List.getD_cons_succ]
    · simp only [recordHit, if_neg hr]
      cases i with
      | zero => simp [(ih 0).1]
      | succ n =>
        simp only [List.getD_cons_succ, List.length_cons]
        exact ⟨by rw [(ih n).1], (ih n).2⟩

/-- Monotonicity carries over to any sequence of sequential hits. -/
theorem runHits_props (d : TrackingRecord) :
    ∀ (hits : List (Int × String)) (rows : List TrackingRecord) (i : Nat),
      (runHits hits rows).length = rows.length
    ∧ ((rows.getD i d).opened = true → ((runHits hits rows).getD i d).opened = true)
    ∧ (rows.getD i d).views ≤ ((runHits hits rows).getD i d).views := by
  intro hits
  induction hits with
  | nil => intro rows i; simp [runHits]
  | cons hhit hs ih =>
    intro rows i
    obtain ⟨hlen, hop, hvle, _⟩ := recordHit_step_props d hhit.1 hhit.2 rows i
    obtain ⟨hlen2, hop2, hvle2⟩ := ih (recordHit hhit.1 hhit.2 rows) i
    have hrun : runHits (hhit :: hs) rows = runHits hs (recordHit hhit.1 hhit.2 rows) := rfl
    rw [hrun]
    exact ⟨by rw [hlen2, hlen], fun hx => hop2 (hop hx), Nat.le_trans hvle hvle2⟩

/-- Claim C5: across any sequence of sequential hits each record's opened
flag is monotone (it can only go from "No" to "Yes" and never reverts, so
the transition happens at most once) and its view count never decreases;
a single hit changes a view count only when it finds the record already
opened, and then by exactly one. -/
theorem c5_monotonic (d : TrackingRecord) :
    (∀ (t : Int) (tid : String) (rows : List TrackingRecord) (i : Nat),
        (recordHit t tid rows).length = rows.length
      ∧ ((rows.getD i d).opened = true → ((recordHit t tid rows).getD i d).opened = true)
      ∧ (rows.getD i d).views ≤ ((recordHit t tid rows).getD i d).views
      ∧ (((recordHit t tid rows).getD i d).views ≠ (rows.getD i d).views →
           (rows.getD i d).opened = true
         ∧ ((recordHit t tid rows).getD i d).views = (rows.getD i d).views + 1))
  ∧ (∀ (hits : List (Int × String)) (rows : List TrackingRecord) (i : Nat),
        (runHits hits rows).length = rows.length
      ∧ ((rows.getD i d).opened = true → ((runHits hits rows).getD i d).opened = true)
      ∧ (rows.getD i d).views ≤ ((runHits hits rows).getD i d).views) :=
  ⟨fun t tid rows i => recordHit_step_props d t tid rows i,
   fun hits rows i => runHits_props d hits rows i⟩

/-- Witness for C5: a hit on an opened record increments its views by
exactly one, and the record was indeed already opened. -/
theorem c5_monotonic_witness :
    (([⟨"tok-1", "a@x.com", "s1", 0, some 0, true, 0⟩] : List TrackingRecord).getD 0 emptyRec).opened
        = true
  ∧ ((recordHit 3 "tok-1" [⟨"tok-1", "a@x.com", "s1", 0, some 0, true, 0⟩]).getD 0 emptyRec).views
      = (([⟨"tok-1", "a@x.com", "s1", 0, some 0, true, 0⟩] : List TrackingRecord).getD 0 emptyRec).views
          + 1 :=
  ((c5_monotonic emptyRec).1 3 "tok-1" [⟨"tok-1", "a@x.com", "s1", 0, some 0, true, 0⟩] 0).2.2.2
    (by decide)

/-- The JS expression reading the Views cell with a fallback of 1 equals
the larger of the cell value and one. -/
theorem views_or_one (v : Nat) : (if v = 0 then 1 else v) = max v 1 := by
  cases v with
  | zero => simp
  | succ n => simp [Nat.max_eq_left (Nat.succ_le_succ (Nat.zero_le n))]

/-- The loop body adds an opened row's view contribution to totalViews. -/
theorem statsLoopStep_totalViews (w : Int) (acc : StatsAcc) (r : TrackingRecord) :
    (statsLoopStep w acc r).totalViews
      = acc.totalViews + (if r.opened then max r.views 1 else 0) := by
  cases hop : r.opened <;>
    by_cases hw : w < r.sendDate <;>
      simp [statsLoopStep, hop, hw, views_or_one]

/-- Folding the loop over the rows sums max of views and one over the
opened rows. -/
theorem statsFold_totalViews (w : Int) :
    ∀ (rows : List TrackingRecord) (acc : StatsAcc),
      (rows.foldl (statsLoopStep w) acc).totalViews
        = acc.totalViews
          + ((rows.filter (fun r => r.opened)).map (fun r => max r.views 1)).sum := by
  intro rows
  induction rows with
  | nil => intro acc; simp
  | cons r rs ih =>
    intro acc
    simp only [List.foldl_cons]
    rw [ih (statsLoopStep w acc r), statsLoopStep_totalViews]
    cases hop : r.opened <;> simp [hop, List.filter_cons]
    omega

/-- Claim C6: on any store with data rows, the totalViews statistic equals
the sum over rows with Opened "Yes" of the larger of the row's Views and
one; unopened rows contribute nothing. -/
theorem c6_totalViews (oneWeekAgo : Int) (rows : List TrackingRecord) (h : rows ≠ []) :
    ∃ s, getEmailStats oneWeekAgo (some rows) = StatsResult.ok s
      ∧ s.totalViews
          = ((rows.filter (fun r => r.opened)).map (fun r => max r.views 1)).sum := by
  have hne : rows.isEmpty = false := by
    cases rows with
    | nil => exact absurd rfl h
    | cons a as => rfl
  simp only [getEmailStats, hne, Bool.false_eq_true, if_false]
  refine ⟨_, rfl, ?_⟩
  simp [statsFold_totalViews oneWeekAgo rows ⟨0, 0, 0, 0⟩]

/-- Witness for C6 at a one-row store holding an opened record. -/
theorem c6_totalViews_witness :
    ∃ s, getEmailStats 0 (some [⟨"t", "e", "s", 0, some 0, true, 0⟩]) = StatsResult.ok s
      ∧ s.totalViews
          = ((([⟨"t", "e", "s", 0, some 0, true, 0⟩] : List TrackingRecord).filter
                (fun r => r.opened)).map (fun r => max r.views 1)).sum :=
  c6_totalViews 0 [⟨"t", "e", "s", 0, some 0, true, 0⟩] (by simp)

/-- One hit changes at most the Open Date, Opened and Views cells of the
first matching row: per row, Token, Email, Seller ID and Send Date are
untouched, and any row other than the first match is fully unchanged. -/
theorem recordHit_frame (t : Int) (tid : String) (d : TrackingRecord) :
    ∀ (rows : List TrackingRecord) (i : Nat),
      ((recordHit t tid rows).getD i d).token = (rows.getD i d).token
    ∧ ((recordHit t tid rows).getD i d).email = (rows.getD i d).email
    ∧ ((recordHit t tid rows).getD i d).sellerId = (rows.getD i d).sellerId
    ∧ ((recordHit t tid rows).getD i d).sendDate = (rows.getD i d).sendDate
    ∧ (findTokenIdx tid rows ≠ some i →
        (recordHit t tid rows).getD i d = rows.getD i d) := by
  intro rows
  induction rows with
  | nil => intro i; simp [recordHit]
  | cons r rs ih =>
    intro i
    by_cases hr : r.token = tid
    · simp only [recordHit, if_pos hr, findTokenIdx]
      cases i with
      | zero =>
        simp only [List.getD_cons_zero, if_pos hr]
        cases hop : r.opened <;> simp [hitStep, hop]
      | succ n => simp [List.getD_cons_succ, if_pos hr]
    · simp only [recordHit, if_neg hr, findTokenIdx]
      cases i with
      | zero => simp
      | succ n =>
        simp only [List.getD_cons_succ, if_neg hr]
        obtain ⟨h1, h2, h3, h4, h5⟩ := ih n
        refine ⟨h1, h2, h3, h4, fun hne => h5 ?_⟩
        intro hcon
        exact hne (by rw [hcon]; rfl)

/-- Claim C10: doGet never creates or deletes tracking rows or the sheet;
it mutates at most the Open Date, Opened and Views cells of the first row
whose token matches the request id, leaving that row's Token, Email,
Seller ID and Send Date cells and every other row entirely unchanged. -/
theorem c10_frame (now : Int) (req : Request) (store : Option (List TrackingRecord))
    (i : Nat) :
    (doGetStore now req store = none ↔ store = none)
  ∧ ((doGetStore now req store).getD []).length = (store.getD []).length
  ∧ (((doGetStore now req store).getD []).getD i emptyRec).token
      = ((store.getD []).getD i emptyRec).token
  ∧ (((doGetStore now req store).getD []).getD i emptyRec).email
      = ((store.getD []).getD i emptyRec).email
  ∧ (((doGetStore now req store).getD []).getD i emptyRec).sellerId
      = ((store.getD []).getD i emptyRec).sellerId
  ∧ (((doGetStore now req store).getD []).getD i emptyRec).sendDate
      = ((store.getD []).getD i emptyRec).sendDate
  ∧ (findTokenIdx (req.id.getD "") (store.getD []) ≠ some i →
       ((doGetStore now req store).getD []).getD i emptyRec
         = (store.getD []).getD i emptyRec) := by
  have hunfold : doGetStore now req store
      = if req.action = some "open" ∧ idTruthy req.id = true then
          recordEmailOpen now (req.id.getD "") store
        else store := rfl
  by_cases hc : req.action = some "open" ∧ idTruthy req.id = true
  · rw [hunfold, if_pos hc]
    cases store with
    | none => simp [recordEmailOpen]
    | some rows =>
      obtain ⟨h1, h2, h3, h4, h5⟩ := recordHit_frame now (req.id.getD "") emptyRec rows i
      have hlen := (recordHit_step_props emptyRec now (req.id.getD "") rows i).1
      simp only [recordEmailOpen, Option.getD_some]
      exact ⟨by simp, hlen, h1, h2, h3, h4, h5⟩
  · rw [hunfold, if_neg hc]
    exact ⟨Iff.rfl, rfl, rfl, rfl, rfl, rfl, fun _ => rfl⟩

/-- Witness for C10: a hit with an unknown token leaves the single stored
row unchanged. -/
theorem c10_frame_witness :
    ((doGetStore 5 ⟨some "zzz", some "open"⟩
        (some [⟨"tok-1", "a@x.com", "s1", 0, none, false, 0⟩])).getD []).getD 0 emptyRec
      = (((some [⟨"tok-1", "a@x.com", "s1", 0, none, false, 0⟩]
            : Option (List TrackingRecord)).getD []).getD 0 emptyRec) :=
  (c10_frame 5 ⟨some "zzz", some "open"⟩
      (some [⟨"tok-1", "a@x.com", "s1", 0, none, false, 0⟩]) 0).2.2.2.2.2.2
    (by decide)
